import Mathlib

/-!
Shallow embedding of the Flipzy composite gateway (CompositeMicroservice).

The gateway issues outbound HTTP calls to three backend services and merges
the responses.  Each outbound call is modelled by a `Fetch` oracle value:
either the client library raises (connection error / timeout), or a response
arrives with a status code and an already-parsed body.  Identifiers (UUIDs)
are modelled as strings; `str()` on them is the identity.  Python exceptions
escaping a handler are modelled by `HErr`; `HTTPException(status, detail)`
keeps its status and detail, any other exception collapses to `HErr.exn`.
Decimal values are modelled as rationals; `PyNum` tags whether a value is an
exact `decimal.Decimal` or has passed through a binary `float` conversion.
-/

/-- Outcome of one outbound HTTP call: `fail` models the client library
raising (connection error or timeout); `ok status body` models a response
with the given status code and parsed body. -/
inductive Fetch (α : Type) where
  | fail : Fetch α
  | ok : Nat → α → Fetch α
deriving DecidableEq

/-- An HTTP response body: the raw text together with its parsed JSON, for
code paths that use `res.text` on failure and `res.json()` on success. -/
structure HttpBody (α : Type) where
  text : String
  json : α
deriving DecidableEq

/-- requests.Response.raise_for_status raises exactly for 4xx and 5xx. -/
def requestsRaises (s : Nat) : Bool := decide (400 ≤ s ∧ s < 600)

/-- httpx.Response.raise_for_status raises for every status outside 2xx. -/
def httpxRaises (s : Nat) : Bool := decide (¬ (200 ≤ s ∧ s < 300))

/-- Exceptions escaping a handler: a FastAPI `HTTPException` with status and
detail, or any other uncaught Python exception (`exn`). -/
inductive HErr where
  | http (status : Nat) (detail : String)
  | exn
deriving DecidableEq

/-- A Python numeric value in the gateway's price pipeline: `dec q` is an
exact `decimal.Decimal` holding the rational `q`; `flt q` is the result of
converting that value through a binary `float` (the pre-conversion rational
is recorded, the representation change is what matters here). -/
inductive PyNum where
  | dec (q : Rat)
  | flt (q : Rat)
deriving DecidableEq

/-- Python `float(x)`: converts a value through binary floating point. -/
def pyFloat : PyNum → PyNum
  | PyNum.dec q => PyNum.flt q
  | PyNum.flt q => PyNum.flt q

/-- True when the value is still an exact decimal, never float-converted. -/
def PyNum.isExactDecimal : PyNum → Bool
  | PyNum.dec _ => true
  | PyNum.flt _ => false

/-- User record as returned by the User service (the fields the gateway
reads: `id` and `role`; other fields are passed through untouched). -/
structure UserJson where
  id : String
  role : String
deriving DecidableEq

/-- Address record as returned by `GET /addresses?user_id=`. -/
structure Address where
  id : String
  user_id : String
deriving DecidableEq

/-- The merged User + Address view (`UserProfileFlat`). -/
structure Profile where
  user : UserJson
  address : Option Address
deriving DecidableEq

/-- Backend responses consumed by one run of `get_user_with_address`. -/
structure ProfileBackend where
  userResp : Fetch UserJson
  addrResp : Fetch (List Address)
deriving DecidableEq

/-- main.py `get_user_with_address`: fetch the user (any failure, transport
included, becomes `HTTPException(404, "User not found")` through the blanket
`except`), then best-effort fetch the address list (first element on a 200,
otherwise no address), and merge. -/
def get_user_with_address (b : ProfileBackend) : Except HErr Profile :=
  match b.userResp with
  | Fetch.fail => Except.error (HErr.http 404 "User not found")
  | Fetch.ok s u =>
    if requestsRaises s then Except.error (HErr.http 404 "User not found")
    else
      let address : Option Address :=
        match b.addrResp with
        | Fetch.fail => none
        | Fetch.ok s2 addrs => if s2 = 200 then addrs.head? else none
      Except.ok ⟨u, address⟩

/-- Wallet record as returned by the Transaction service. -/
structure Wallet where
  id : String
  user_id : String
deriving DecidableEq

/-- Backend responses consumed by one run of `ensure_wallet_exists`:
the first `GET /wallets?user_id=` query, the `POST /wallets` creation, and
the re-query performed after a 400 on creation. -/
structure WalletBackend where
  query1 : Fetch (List Wallet)
  createResp : Fetch Wallet
  query2 : Fetch (List Wallet)
deriving DecidableEq

/-- main.py `ensure_wallet_exists`: query, return first result if any; else
create; on a 400 re-query and take the first element (`res.json()[0]`, whose
IndexError on an empty list is caught by the blanket `except`); on any other
failing status `raise_for_status` raises, also caught.  Every exception path
returns Python `None`, modelled as `none`. -/
def ensure_wallet_exists (b : WalletBackend) : Option Wallet :=
  match b.query1 with
  | Fetch.fail => none
  | Fetch.ok _ ws =>
    match ws with
    | w :: _ => some w
    | [] =>
      match b.createResp with
      | Fetch.fail => none
      | Fetch.ok cs w =>
        if cs = 400 then
          match b.query2 with
          | Fetch.fail => none
          | Fetch.ok _ ws2 => ws2.head?
        else if requestsRaises cs then none
        else some w

/-- Error taxonomy the specification prescribes for wallet provisioning. -/
inductive WalletSpecError where
  | walletProvisioningFailed
  | backendUnavailable
deriving DecidableEq

/-- Modelled from the spec: section 4.3 `ensureWallet` — the spec's words
for the same operation, used only to compare against the source's
`ensure_wallet_exists`.  Query and return the first result if any; else
create; a conflict on creation triggers a re-query whose first result is
returned, an empty re-query is a fatal `WalletProvisioningFailed`; any other
creation failure propagates as `BackendUnavailable`. -/
def ensureWalletSpec (b : WalletBackend) : Except WalletSpecError Wallet :=
  match b.query1 with
  | Fetch.fail => Except.error WalletSpecError.backendUnavailable
  | Fetch.ok _ ws =>
    match ws with
    | w :: _ => Except.ok w
    | [] =>
      match b.createResp with
      | Fetch.fail => Except.error WalletSpecError.backendUnavailable
      | Fetch.ok cs w =>
        if cs = 400 then
          match b.query2 with
          | Fetch.fail => Except.error WalletSpecError.backendUnavailable
          | Fetch.ok _ ws2 =>
            match ws2 with
            | w2 :: _ => Except.ok w2
            | [] => Except.error WalletSpecError.walletProvisioningFailed
        else if requestsRaises cs then
          Except.error WalletSpecError.backendUnavailable
        else Except.ok w

/-- The in-memory `ITEM_SELLER_MAP`: item id to seller id.  A Python dict
assignment is modelled by consing, with lookup taking the first match. -/
def SellerMap : Type := List (String × String)

/-- Dict lookup `m.get(itemId)`: first matching key wins. -/
def mapLookup (m : SellerMap) (i : String) : Option String :=
  match m with
  | [] => none
  | (k, v) :: rest => if k = i then some v else mapLookup rest i

/-- Dict assignment `ITEM_SELLER_MAP[itemId] = sellerId` (upsert). -/
def mapRecord (m : SellerMap) (i s : String) : SellerMap := (i, s) :: m

/-- Item record as returned by the Listing service on creation or listing
(the fields the seller-map logic reads; remaining fields pass through). -/
structure CreatedItemJson where
  id : String
  name : String
deriving DecidableEq

/-- Result of the older gateway's item creation: the HTTP-level result and
the seller map after the call. -/
structure LegacyCreateOutcome where
  result : Except HErr CreatedItemJson
  map : SellerMap

/-- models/composite_models.py `create_item_from_frontend`: POST the listing
payload; a status outside 200/201 raises `HTTPException(status, res.text)`;
on success record `ITEM_SELLER_MAP[item_id] = seller_uuid` and return the
created item. -/
def legacy_create_item (m : SellerMap) (seller_id : String)
    (postResp : Fetch (HttpBody CreatedItemJson)) : LegacyCreateOutcome :=
  match postResp with
  | Fetch.fail => ⟨Except.error HErr.exn, m⟩
  | Fetch.ok s body =>
    if s = 200 ∨ s = 201 then ⟨Except.ok body.json, mapRecord m body.json.id seller_id⟩
    else ⟨Except.error (HErr.http s body.text), m⟩

/-- services/listing_service.py `list_items`: translate each backend item,
attaching the seller id from the composite's logical foreign-key map
(`item_seller_map.get(id, None)`).  Category and media translation does not
touch the seller logic and is elided. -/
def list_items (m : SellerMap) (arr : List CreatedItemJson) :
    List (CreatedItemJson × Option String) :=
  arr.map (fun d => (d, mapLookup m d.id))

/-- Modelled from the spec: section 4.2 `resolveSeller` — the repository's
unified resolver (and its pydantic models) is not under src/; the spec says
it returns the authoritative owner if present, else the mapped value. -/
def resolveSeller (authoritativeOwner : Option String) (m : SellerMap)
    (itemId : String) : Option String :=
  match authoritativeOwner with
  | some a => some a
  | none => mapLookup m itemId

/-- Media record created through `POST /media`. -/
structure MediaJson where
  id : String
deriving DecidableEq

/-- The listing payload main.py's `create_item_from_frontend` POSTs to the
Listing service: `price` is `str(price)` of the form's Decimal (exact), and
`owner_user_id` is the creating seller's id. -/
structure ListingCreateReq where
  name : String
  description : String
  price : PyNum
  status : String
  condition : String
  category_id : String
  owner_user_id : String
  media : List String
deriving DecidableEq

/-- Backend responses consumed by main.py's item creation: the `POST /media`
call (used only when a file was uploaded) and the `POST /items` call. -/
structure MainCreateBackend where
  mediaResp : Fetch (HttpBody MediaJson)
  itemResp : Fetch (HttpBody CreatedItemJson)

/-- Result of main.py's item creation: the HTTP-level result and the listing
payload that was sent to the backend. -/
structure MainCreateOutcome where
  result : Except HErr CreatedItemJson
  listingReq : ListingCreateReq

/-- main.py `create_item_from_frontend`: optionally create a media record
(any media failure is tolerated, leaving the media list empty), then POST
the listing payload with `owner_user_id := seller_id`; a status outside
200/201 raises `HTTPException(status, res.text)`. -/
def create_item_from_frontend (b : MainCreateBackend) (seller_id name description : String)
    (price : Rat) (status condition category_id : String) (hasFile : Bool) :
    MainCreateOutcome :=
  let media_list : List String :=
    if hasFile then
      match b.mediaResp with
      | Fetch.fail => []
      | Fetch.ok ms mbody => if ms = 201 then [mbody.json.id] else []
    else []
  let req : ListingCreateReq :=
    ⟨name, description, PyNum.dec price, status, condition, category_id, seller_id, media_list⟩
  match b.itemResp with
  | Fetch.fail => ⟨Except.error HErr.exn, req⟩
  | Fetch.ok s body =>
    if s = 200 ∨ s = 201 then ⟨Except.ok body.json, req⟩
    else ⟨Except.error (HErr.http s body.text), req⟩

/-- Item record as returned by `GET /items/{id}` and parsed into
`CompositeItem` (the fields the transaction flow reads).  The price is a
decimal per the data model; the pydantic model itself is not under src/, so
its `price` field follows the spec's words ("price (decimal)"). -/
structure ItemJson where
  owner_user_id : Option String
  name : String
  price : Rat
deriving DecidableEq

/-- Client request body `CompositeTransactionCreate` (pydantic model not
under src/; fields are the ones main.py reads, `price_snapshot` being an
optional decimal override per the spec). -/
structure TxPayload where
  item_id : String
  order_type : String
  price_snapshot : Option Rat
deriving DecidableEq

/-- The payload main.py POSTs to `POST /transactions`: all ids stringified,
`price_snapshot` being `str(final_price)` of a Decimal. -/
structure TxReq where
  buyer_id : String
  seller_id : String
  item_id : String
  order_type : String
  title_snapshot : String
  price_snapshot : PyNum
deriving DecidableEq

/-- Transaction record as returned by the Transaction service; the backend
echoes the snapshot as a string, re-parsed with `Decimal(...)` (exact). -/
structure TxJson where
  id : String
  order_type : String
  title_snapshot : String
  price_snapshot : Rat
  status : String
  created_at : String
deriving DecidableEq

/-- The item as embedded in the returned composite transaction view, whose
price main.py overwrites with `float(final_price)`. -/
structure ItemView where
  owner_user_id : Option String
  name : String
  price : PyNum
deriving DecidableEq

/-- The composite transaction view returned to the client. -/
structure TxView where
  id : String
  buyer : Profile
  seller : Profile
  item : ItemView
  order_type : String
  title_snapshot : String
  price_snapshot : PyNum
  status : String
  created_at : String
deriving DecidableEq

/-- Backend responses consumed by one run of `create_composite_transaction`:
the buyer's profile fetches, the raw item fetch, the seller's profile
fetches, the two wallet-ensure call groups, and the transaction POST. -/
structure TxBackend where
  buyerB : ProfileBackend
  itemResp : Fetch ItemJson
  sellerB : ProfileBackend
  buyerWalletB : WalletBackend
  sellerWalletB : WalletBackend
  txResp : Fetch TxJson

/-- Result of `create_composite_transaction`: the HTTP-level result together
with the `POST /transactions` payload when that call was issued (`none`
means the flow aborted before reaching the transaction backend). -/
structure TxOutcome where
  result : Except HErr TxView
  txRequest : Option TxReq

/-- main.py `create_composite_transaction`: reject a missing/empty token
subject; fetch buyer profile and item (a buyer-profile failure propagates,
an item transport failure propagates as an exception, a non-200 item status
is a 404); require a non-empty `owner_user_id` (422); reject
`str(seller_id) == str(buyer_id)` (400, exact string comparison); fetch the
seller profile (failures propagate) and ensure both wallets (results
discarded, never raising); final price is the caller's `price_snapshot`
override or the item's price; POST the transaction (failure propagates);
return the view with the item's price overwritten by `float(final_price)`
and `price_snapshot` re-parsed as a Decimal from the backend's echo. -/
def create_composite_transaction (b : TxBackend) (buyer_id : Option String)
    (payload : TxPayload) : TxOutcome :=
  match buyer_id with
  | none => ⟨Except.error (HErr.http 401 "Invalid token"), none⟩
  | some bid =>
    if bid = "" then ⟨Except.error (HErr.http 401 "Invalid token"), none⟩
    else
      match get_user_with_address b.buyerB with
      | Except.error e => ⟨Except.error e, none⟩
      | Except.ok buyer =>
        match b.itemResp with
        | Fetch.fail => ⟨Except.error HErr.exn, none⟩
        | Fetch.ok s item =>
          if s ≠ 200 then ⟨Except.error (HErr.http 404 "Item not found"), none⟩
          else
            match item.owner_user_id with
            | none => ⟨Except.error (HErr.http 422 "Item missing owner_user_id"), none⟩
            | some sid =>
              if sid = "" then
                ⟨Except.error (HErr.http 422 "Item missing owner_user_id"), none⟩
              else if sid = bid then
                ⟨Except.error (HErr.http 400 "Cannot purchase your own item"), none⟩
              else
                match get_user_with_address b.sellerB with
                | Except.error e => ⟨Except.error e, none⟩
                | Except.ok seller =>
                  let _ := ensure_wallet_exists b.buyerWalletB
                  let _ := ensure_wallet_exists b.sellerWalletB
                  let finalPrice : PyNum :=
                    match payload.price_snapshot with
                    | some q => PyNum.dec q
                    | none => PyNum.dec item.price
                  let req : TxReq :=
                    ⟨bid, sid, payload.item_id, payload.order_type, item.name, finalPrice⟩
                  match b.txResp with
                  | Fetch.fail => ⟨Except.error HErr.exn, some req⟩
                  | Fetch.ok ts tx =>
                    if requestsRaises ts then ⟨Except.error HErr.exn, some req⟩
                    else
                      ⟨Except.ok ⟨tx.id, buyer, seller,
                          ⟨item.owner_user_id, item.name, pyFloat finalPrice⟩,
                          tx.order_type, tx.title_snapshot,
                          PyNum.dec tx.price_snapshot, tx.status, tx.created_at⟩,
                        some req⟩

/-- Error kinds a service adapter in src/services can surface:
`valueNotFound` is the `ValueError("... not found")` raised on a 404,
`httpStatusError` the `requests.HTTPError` from `raise_for_status`, and
`transportError` the connection/timeout exception from the client. -/
inductive AdapterErr where
  | valueNotFound
  | httpStatusError (s : Nat)
  | transportError
deriving DecidableEq

/-- services/user_service.py `get_user`: a 404 raises
`ValueError("User not found")`, any other 4xx/5xx raises via
`raise_for_status`, a transport failure raises the client's exception, and
a success parses the user. -/
def user_service_get_user (resp : Fetch UserJson) : Except AdapterErr UserJson :=
  match resp with
  | Fetch.fail => Except.error AdapterErr.transportError
  | Fetch.ok s u =>
    if s = 404 then Except.error AdapterErr.valueNotFound
    else if requestsRaises s then Except.error (AdapterErr.httpStatusError s)
    else Except.ok u

/-- Backend responses consumed by one run of `delete_my_item`: the item
fetch and the delete call. -/
structure DeleteBackend where
  itemResp : Fetch ItemJson
  delResp : Fetch Unit
deriving DecidableEq

/-- Result of `delete_my_item`: the HTTP-level result and whether the
`DELETE /items/{id}` call was issued. -/
structure DeleteOutcome where
  result : Except HErr Unit
  deleteIssued : Bool

/-- main.py `delete_my_item`: reject a missing/empty token subject (401);
fetch the item, any failure (transport failure or failing status alike)
becoming `HTTPException(404, "Item not found")` through the blanket
`except`; reject when `item.get("owner_user_id") != user_id` (403); forward
the delete, any failure there becoming a 502. -/
def delete_my_item (b : DeleteBackend) (user_id : Option String) : DeleteOutcome :=
  match user_id with
  | none => ⟨Except.error (HErr.http 401 "Invalid token"), false⟩
  | some uid =>
    if uid = "" then ⟨Except.error (HErr.http 401 "Invalid token"), false⟩
    else
      match b.itemResp with
      | Fetch.fail => ⟨Except.error (HErr.http 404 "Item not found"), false⟩
      | Fetch.ok s item =>
        if requestsRaises s then ⟨Except.error (HErr.http 404 "Item not found"), false⟩
        else if item.owner_user_id ≠ some uid then
          ⟨Except.error (HErr.http 403 "You can only delete your own items"), false⟩
        else
          match b.delResp with
          | Fetch.fail => ⟨Except.error (HErr.http 502 "Failed to delete item"), true⟩
          | Fetch.ok ds _ =>
            if requestsRaises ds then
              ⟨Except.error (HErr.http 502 "Failed to delete item"), true⟩
            else ⟨Except.ok (), true⟩

/-- The `POST /users` payload the login flow sends when the email is new. -/
structure NewUserReq where
  email : String
  username : String
  full_name : Option String
  avatar_url : Option String
  phone : String
  role : String
deriving DecidableEq

/-- The `GoogleLoginRequest` body. -/
structure LoginReq where
  email : String
  username : String
  full_name : Option String
  avatar_url : Option String
  google_token : String
deriving DecidableEq

/-- A signed session token, modelled by its claims (`sub` and `role`;
signing with the fixed HS256 secret and the expiry claim are abstracted:
decoding a token issued by this gateway recovers exactly these claims). -/
structure Token where
  sub : String
  role : String
deriving DecidableEq

/-- main.py `create_jwt`: signs the payload `{sub: user_id, role: role}`. -/
def create_jwt (user_id : String) (role : String) : Token := ⟨user_id, role⟩

/-- main.py `verify_jwt` on a token this gateway issued: decoding recovers
the signed claims. -/
def jwt_decode (t : Token) : Token := t

/-- Backend responses consumed by one run of `login_with_google`: the
`GET /users/by_email/{email}` probe and the `POST /users` creation. -/
structure LoginBackend where
  byEmail : Fetch UserJson
  createResp : Fetch UserJson
deriving DecidableEq

/-- Result of `login_with_google`: the HTTP-level result (user plus token)
and the `POST /users` payload when account creation was attempted. -/
structure LoginOutcome where
  result : Except HErr (UserJson × Token)
  createReq : Option NewUserReq

/-- main.py `login_with_google`: probe by email (a transport failure
propagates); a 200 logs the existing account in; any other status creates a
new account with placeholder phone `"0000000000"` and role `"user"` (httpx
`raise_for_status` propagating any non-2xx creation status); either way a
token is issued for `str(user.id)` and `user.role`. -/
def login_with_google (b : LoginBackend) (login : LoginReq) : LoginOutcome :=
  match b.byEmail with
  | Fetch.fail => ⟨Except.error HErr.exn, none⟩
  | Fetch.ok s u =>
    if s = 200 then
      ⟨Except.ok (u, create_jwt u.id u.role), none⟩
    else
      let req : NewUserReq :=
        ⟨login.email, login.username, login.full_name, login.avatar_url,
          "0000000000", "user"⟩
      match b.createResp with
      | Fetch.fail => ⟨Except.error HErr.exn, some req⟩
      | Fetch.ok cs cu =>
        if httpxRaises cs then ⟨Except.error HErr.exn, some req⟩
        else ⟨Except.ok (cu, create_jwt cu.id cu.role), some req⟩

/-- Python truthiness of an optional query-parameter string: `None` and the
empty string are falsy. -/
def truthy : Option String → Bool
  | none => false
  | some s => decide (s ≠ "")

/-- The query parameters sent to `GET /transactions`. -/
structure QueryParams where
  buyer_id : Option String
  seller_id : Option String
deriving DecidableEq

/-- A transaction list element as echoed by the backend (opaque here). -/
structure TxRecord where
  id : String
deriving DecidableEq

/-- Backend response consumed by one run of `get_my_transactions`. -/
structure MyTxBackend where
  listResp : Fetch (List TxRecord)
deriving DecidableEq

/-- Result of `get_my_transactions`: the HTTP-level result and the query
parameters sent to the backend when the query was issued. -/
structure MyTxOutcome where
  result : Except HErr (List TxRecord)
  query : Option QueryParams

/-- main.py `get_my_transactions`: a truthy `buyer_id` differing from the
token subject is a 403, likewise `seller_id`; truthy parameters are copied
into the backend query; when no parameter was copied the query defaults to
`buyer_id = sub`; any backend failure is swallowed into an empty list. -/
def get_my_transactions (b : MyTxBackend) (buyer_id seller_id : Option String)
    (sub : String) : MyTxOutcome :=
  if truthy buyer_id = true ∧ buyer_id ≠ some sub then
    ⟨Except.error (HErr.http 403 "Cannot view other users' buyer history"), none⟩
  else if truthy seller_id = true ∧ seller_id ≠ some sub then
    ⟨Except.error (HErr.http 403 "Cannot view other users' seller history"), none⟩
  else
    let p1 : Option String := if truthy buyer_id = true then buyer_id else none
    let p2 : Option String := if truthy seller_id = true then seller_id else none
    let params : QueryParams :=
      if p1 = none ∧ p2 = none then ⟨some sub, none⟩ else ⟨p1, p2⟩
    match b.listResp with
    | Fetch.fail => ⟨Except.ok [], some params⟩
    | Fetch.ok s txs =>
      if requestsRaises s then ⟨Except.ok [], some params⟩
      else ⟨Except.ok txs, some params⟩

/-- ASCII lower-casing of one character (the case folding relevant to the
hexadecimal alphabet of UUID identifiers). -/
def asciiLowerChar (c : Char) : Char :=
  if 'A' ≤ c ∧ c ≤ 'Z' then Char.ofNat (c.toNat + 32) else c

/-- ASCII lower-casing of an identifier string. -/
def asciiLower (s : String) : String := String.mk (s.data.map asciiLowerChar)

/-- Two identifier strings denote the same identity when they agree up to
ASCII case — the case-insensitive equality of UUID text forms. -/
def sameIdentity (a b : String) : Prop := asciiLower a = asciiLower b

/-- A wallet-provisioning run in which the initial query is empty, creation
hits the conflict status 400, and the re-query is still empty — the fatal
lost-race exhaustion the spec calls `WalletProvisioningFailed`. -/
def walletBackendConflictEmpty : WalletBackend :=
  ⟨Fetch.ok 200 [], Fetch.ok 400 ⟨"w1", "u1"⟩, Fetch.ok 200 []⟩

/-- A wallet-provisioning run in which the initial query is empty and the
creation call fails at the transport level — the spec's
`BackendUnavailable` case. -/
def walletBackendCreateDown : WalletBackend :=
  ⟨Fetch.ok 200 [], Fetch.fail, Fetch.ok 200 []⟩

/-- A transaction-creation run in which the authenticated buyer is `"AB1"`
and the item's resolved owner is `"ab1"` — the same identity up to case —
and every backend call succeeds. -/
def txBackendSelfCase : TxBackend :=
  ⟨⟨Fetch.ok 200 ⟨"AB1", "user"⟩, Fetch.fail⟩,
   Fetch.ok 200 ⟨some "ab1", "Lamp", 101/10⟩,
   ⟨Fetch.ok 200 ⟨"ab1", "user"⟩, Fetch.fail⟩,
   ⟨Fetch.ok 200 [⟨"w1", "AB1"⟩], Fetch.fail, Fetch.fail⟩,
   ⟨Fetch.ok 200 [⟨"w2", "ab1"⟩], Fetch.fail, Fetch.fail⟩,
   Fetch.ok 201 ⟨"tx1", "buy", "Lamp", 101/10, "created", "now"⟩⟩

/-- The client payload accompanying `txBackendSelfCase`. -/
def txPayloadSelfCase : TxPayload := ⟨"item-1", "buy", none⟩

/-- A fully successful transaction-creation run with the caller overriding
the price to the decimal 10.10 (the rational 101/10, not representable in
binary floating point). -/
def txBackendPrice : TxBackend :=
  ⟨⟨Fetch.ok 200 ⟨"buyer1", "user"⟩, Fetch.fail⟩,
   Fetch.ok 200 ⟨some "seller1", "Lamp", 7/2⟩,
   ⟨Fetch.ok 200 ⟨"seller1", "user"⟩, Fetch.fail⟩,
   ⟨Fetch.ok 200 [⟨"w1", "buyer1"⟩], Fetch.fail, Fetch.fail⟩,
   ⟨Fetch.ok 200 [⟨"w2", "seller1"⟩], Fetch.fail, Fetch.fail⟩,
   Fetch.ok 201 ⟨"tx9", "buy", "Lamp", 101/10, "created", "t0"⟩⟩

/-- The client payload accompanying `txBackendPrice`. -/
def txPayloadPrice : TxPayload := ⟨"item-9", "buy", some (101/10)⟩

/-- main.py `get_my_wallet_balance`: the only observer of
`ensure_wallet_exists` failures — a `None` wallet becomes the generic
`HTTPException(500, "Could not load wallet")`. -/
def get_my_wallet_balance (b : WalletBackend) : Except HErr Wallet :=
  match ensure_wallet_exists b with
  | none => Except.error (HErr.http 500 "Could not load wallet")
  | some w => Except.ok w

/-- C1: for every item created through the gateway's item-creation operation
that succeeds, a subsequent lookup of that item id in the identity-resolution
map returns the creating seller's id (and a listing translated through
`list_items` attaches that seller), unless the backend record carries its own
authoritative owner field, in which case resolution uses the authoritative
value instead; moreover main.py's creation sends the creating seller as the
backend's authoritative `owner_user_id`. -/
theorem C1_seller_map_invariant :
    (∀ (m : SellerMap) (seller : String) (postResp : Fetch (HttpBody CreatedItemJson))
        (item : CreatedItemJson) (outMap : SellerMap),
        legacy_create_item m seller postResp = ⟨Except.ok item, outMap⟩ →
        mapLookup outMap item.id = some seller ∧
        resolveSeller none outMap item.id = some seller ∧
        (∀ a, resolveSeller (some a) outMap item.id = some a) ∧
        list_items outMap [item] = [(item, some seller)]) ∧
    (∀ (b : MainCreateBackend) (seller nm ds : String) (price : Rat)
        (st cond cat : String) (hasFile : Bool),
        (create_item_from_frontend b seller nm ds price st cond cat
            hasFile).listingReq.owner_user_id = seller) := by
  constructor
  · intro m seller postResp item outMap h
    cases postResp with
    | fail => simp [legacy_create_item] at h
    | ok s body =>
      by_cases hs : s = 200 ∨ s = 201
      · simp only [legacy_create_item, if_pos hs, LegacyCreateOutcome.mk.injEq] at h
        obtain ⟨h1, h2⟩ := h
        cases h1
        subst h2
        refine ⟨?_, ?_, ?_, ?_⟩
        · simp [mapRecord, mapLookup]
        · simp [resolveSeller, mapRecord, mapLookup]
        · intro a
          simp [resolveSeller]
        · simp [list_items, mapRecord, mapLookup]
      · simp [legacy_create_item, if_neg hs] at h
  · intro b seller nm ds price st cond cat hasFile
    cases hresp : b.itemResp with
    | fail => simp [create_item_from_frontend, hresp]
    | ok s body =>
      by_cases hs : s = 200 ∨ s = 201
      · simp [create_item_from_frontend, hresp, hs]
      · simp [create_item_from_frontend, hresp, hs]

/-- C1 witness: a concrete successful creation through each version of the
item-creation operation. -/
theorem C1_seller_map_invariant_witness :
    mapLookup (mapRecord [] "item-1" "seller-1") "item-1" = some "seller-1" ∧
    (create_item_from_frontend ⟨Fetch.fail, Fetch.ok 201 ⟨"", ⟨"item-1", "Lamp"⟩⟩⟩
        "seller-1" "Lamp" "desc" (101/10) "active" "new" "cat-1"
        false).listingReq.owner_user_id = "seller-1" :=
  ⟨(C1_seller_map_invariant.1 [] "seller-1" (Fetch.ok 201 ⟨"", ⟨"item-1", "Lamp"⟩⟩)
      ⟨"item-1", "Lamp"⟩ (mapRecord [] "item-1" "seller-1") rfl).1,
    C1_seller_map_invariant.2 ⟨Fetch.fail, Fetch.ok 201 ⟨"", ⟨"item-1", "Lamp"⟩⟩⟩
      "seller-1" "Lamp" "desc" (101/10) "active" "new" "cat-1" false⟩

/-- C2 counterexample: the code's `ensure_wallet_exists` returns Python
`None` both when the conflict-recovery re-query comes back empty (the case
the claim requires to surface as `WalletProvisioningFailed`) and when the
creation call fails at the transport level (the case the claim requires to
propagate as `BackendUnavailable`); with a single undistinguished `None` for
both, no reading of the code's results can realize the claimed error
reporting, refuting the claim. -/
theorem C2_wallet_counterexample :
    ensure_wallet_exists walletBackendConflictEmpty = none ∧
    ensure_wallet_exists walletBackendCreateDown = none ∧
    get_my_wallet_balance walletBackendConflictEmpty =
      Except.error (HErr.http 500 "Could not load wallet") ∧
    get_my_wallet_balance walletBackendCreateDown =
      Except.error (HErr.http 500 "Could not load wallet") ∧
    ensureWalletSpec walletBackendConflictEmpty =
      Except.error WalletSpecError.walletProvisioningFailed ∧
    ensureWalletSpec walletBackendCreateDown =
      Except.error WalletSpecError.backendUnavailable ∧
    ¬ ∃ interp : Option Wallet → Except WalletSpecError Wallet,
        ∀ b : WalletBackend, interp (ensure_wallet_exists b) = ensureWalletSpec b := by
  refine ⟨rfl, rfl, rfl, rfl, rfl, rfl, ?_⟩
  rintro ⟨f, hf⟩
  have h1 : f none = Except.error WalletSpecError.walletProvisioningFailed :=
    hf walletBackendConflictEmpty
  have h2 : f none = Except.error WalletSpecError.backendUnavailable :=
    hf walletBackendCreateDown
  have h3 := h1.symm.trans h2
  simp at h3

/-- C2 (amended): if the backend query returns any wallet the first is
returned; else creation is attempted; a creation conflict (status 400)
triggers a re-query whose first result is returned when non-empty; an empty
re-query, a creation transport failure, or any other failing creation
status all make the operation return `None` — no typed error is reported
and the distinct failure kinds are indistinguishable to the caller — while
a successful creation returns the created wallet. -/
theorem C2_wallet_amended :
    (∀ (b : WalletBackend) (s : Nat) (w : Wallet) (ws : List Wallet),
        b.query1 = Fetch.ok s (w :: ws) → ensure_wallet_exists b = some w) ∧
    (∀ (b : WalletBackend) (s s2 : Nat) (w w2 : Wallet) (ws2 : List Wallet),
        b.query1 = Fetch.ok s [] → b.createResp = Fetch.ok 400 w →
        b.query2 = Fetch.ok s2 (w2 :: ws2) → ensure_wallet_exists b = some w2) ∧
    (∀ (b : WalletBackend) (s s2 : Nat) (w : Wallet),
        b.query1 = Fetch.ok s [] → b.createResp = Fetch.ok 400 w →
        b.query2 = Fetch.ok s2 [] → ensure_wallet_exists b = none) ∧
    (∀ (b : WalletBackend) (s : Nat),
        b.query1 = Fetch.ok s [] → b.createResp = Fetch.fail →
        ensure_wallet_exists b = none) ∧
    (∀ (b : WalletBackend) (s cs : Nat) (w : Wallet),
        b.query1 = Fetch.ok s [] → b.createResp = Fetch.ok cs w → cs ≠ 400 →
        requestsRaises cs = true → ensure_wallet_exists b = none) ∧
    (∀ (b : WalletBackend) (s cs : Nat) (w : Wallet),
        b.query1 = Fetch.ok s [] → b.createResp = Fetch.ok cs w → cs ≠ 400 →
        requestsRaises cs = false → ensure_wallet_exists b = some w) := by
  refine ⟨?_, ?_, ?_, ?_, ?_, ?_⟩
  · intro b s w ws h
    obtain ⟨q1, c, q2⟩ := b
    simp_all [ensure_wallet_exists]
  · intro b s s2 w w2 ws2 h1 h2 h3
    obtain ⟨q1, c, q2⟩ := b
    simp_all [ensure_wallet_exists]
  · intro b s s2 w h1 h2 h3
    obtain ⟨q1, c, q2⟩ := b
    simp_all [ensure_wallet_exists]
  · intro b s h1 h2
    obtain ⟨q1, c, q2⟩ := b
    simp_all [ensure_wallet_exists]
  · intro b s cs w h1 h2 h3 h4
    obtain ⟨q1, c, q2⟩ := b
    simp_all [ensure_wallet_exists]
  · intro b s cs w h1 h2 h3 h4
    obtain ⟨q1, c, q2⟩ := b
    simp_all [ensure_wallet_exists]

/-- C2 witness: concrete runs exercising each branch of the amended claim. -/
theorem C2_wallet_amended_witness :
    ensure_wallet_exists ⟨Fetch.ok 200 [⟨"w0", "u0"⟩], Fetch.fail, Fetch.fail⟩ =
      some ⟨"w0", "u0"⟩ ∧
    ensure_wallet_exists ⟨Fetch.ok 200 [], Fetch.ok 400 ⟨"wc", "u0"⟩,
        Fetch.ok 200 [⟨"w2", "u0"⟩]⟩ = some ⟨"w2", "u0"⟩ ∧
    ensure_wallet_exists ⟨Fetch.ok 200 [], Fetch.fail, Fetch.fail⟩ = none ∧
    ensure_wallet_exists ⟨Fetch.ok 200 [], Fetch.ok 500 ⟨"wc", "u0"⟩, Fetch.fail⟩ = none ∧
    ensure_wallet_exists ⟨Fetch.ok 200 [], Fetch.ok 201 ⟨"wc", "u0"⟩, Fetch.fail⟩ =
      some ⟨"wc", "u0"⟩ :=
  ⟨C2_wallet_amended.1 ⟨Fetch.ok 200 [⟨"w0", "u0"⟩], Fetch.fail, Fetch.fail⟩
      200 ⟨"w0", "u0"⟩ [] rfl,
    C2_wallet_amended.2.1 ⟨Fetch.ok 200 [], Fetch.ok 400 ⟨"wc", "u0"⟩,
        Fetch.ok 200 [⟨"w2", "u0"⟩]⟩ 200 200 ⟨"wc", "u0"⟩ ⟨"w2", "u0"⟩ [] rfl rfl rfl,
    C2_wallet_amended.2.2.2.1 ⟨Fetch.ok 200 [], Fetch.fail, Fetch.fail⟩ 200 rfl rfl,
    C2_wallet_amended.2.2.2.2.1 ⟨Fetch.ok 200 [], Fetch.ok 500 ⟨"wc", "u0"⟩, Fetch.fail⟩
      200 500 ⟨"wc", "u0"⟩ rfl rfl (by decide) (by decide),
    C2_wallet_amended.2.2.2.2.2 ⟨Fetch.ok 200 [], Fetch.ok 201 ⟨"wc", "u0"⟩, Fetch.fail⟩
      200 201 ⟨"wc", "u0"⟩ rfl rfl (by decide) (by decide)⟩

/-- C3: for every composite transaction-creation request in which resolving
the seller fails — the fetched item has no resolvable owner, or fetching the
seller's profile fails — no `POST /transactions` call is issued, the
operation aborts with an error, and no transaction view is returned. -/
theorem C3_no_tx_on_seller_failure :
    (∀ (b : TxBackend) (bid : String) (p : TxPayload) (buyer : Profile)
        (item : ItemJson),
        bid ≠ "" →
        get_user_with_address b.buyerB = Except.ok buyer →
        b.itemResp = Fetch.ok 200 item →
        (item.owner_user_id = none ∨ item.owner_user_id = some "") →
        create_composite_transaction b (some bid) p =
          ⟨Except.error (HErr.http 422 "Item missing owner_user_id"), none⟩) ∧
    (∀ (b : TxBackend) (bid : String) (p : TxPayload) (buyer : Profile)
        (item : ItemJson) (sid : String) (e : HErr),
        bid ≠ "" →
        get_user_with_address b.buyerB = Except.ok buyer →
        b.itemResp = Fetch.ok 200 item →
        item.owner_user_id = some sid → sid ≠ "" → sid ≠ bid →
        get_user_with_address b.sellerB = Except.error e →
        create_composite_transaction b (some bid) p = ⟨Except.error e, none⟩) := by
  constructor
  · intro b bid p buyer item hbid hbuyer hitem howner
    rcases howner with h | h <;>
      simp [create_composite_transaction, hbid, hbuyer, hitem, h]
  · intro b bid p buyer item sid e hbid hbuyer hitem howner hsid hneq hseller
    simp [create_composite_transaction, hbid, hbuyer, hitem, howner, hsid, hneq, hseller]

/-- C3 witness: a concrete ownerless item and a concrete seller-profile
failure, each aborting before the transaction backend is reached. -/
theorem C3_no_tx_on_seller_failure_witness :
    create_composite_transaction
        ⟨⟨Fetch.ok 200 ⟨"b1", "user"⟩, Fetch.fail⟩, Fetch.ok 200 ⟨none, "Lamp", 7/2⟩,
          ⟨Fetch.fail, Fetch.fail⟩, ⟨Fetch.fail, Fetch.fail, Fetch.fail⟩,
          ⟨Fetch.fail, Fetch.fail, Fetch.fail⟩, Fetch.ok 201 ⟨"t", "buy", "Lamp", 1, "c", "n"⟩⟩
        (some "b1") ⟨"i1", "buy", none⟩ =
      ⟨Except.error (HErr.http 422 "Item missing owner_user_id"), none⟩ ∧
    create_composite_transaction
        ⟨⟨Fetch.ok 200 ⟨"b1", "user"⟩, Fetch.fail⟩, Fetch.ok 200 ⟨some "s1", "Lamp", 7/2⟩,
          ⟨Fetch.fail, Fetch.fail⟩, ⟨Fetch.fail, Fetch.fail, Fetch.fail⟩,
          ⟨Fetch.fail, Fetch.fail, Fetch.fail⟩, Fetch.ok 201 ⟨"t", "buy", "Lamp", 1, "c", "n"⟩⟩
        (some "b1") ⟨"i1", "buy", none⟩ =
      ⟨Except.error (HErr.http 404 "User not found"), none⟩ :=
  ⟨C3_no_tx_on_seller_failure.1
      ⟨⟨Fetch.ok 200 ⟨"b1", "user"⟩, Fetch.fail⟩, Fetch.ok 200 ⟨none, "Lamp", 7/2⟩,
        ⟨Fetch.fail, Fetch.fail⟩, ⟨Fetch.fail, Fetch.fail, Fetch.fail⟩,
        ⟨Fetch.fail, Fetch.fail, Fetch.fail⟩, Fetch.ok 201 ⟨"t", "buy", "Lamp", 1, "c", "n"⟩⟩
      "b1" ⟨"i1", "buy", none⟩ ⟨⟨"b1", "user"⟩, none⟩ ⟨none, "Lamp", 7/2⟩
      (by decide) rfl rfl (Or.inl rfl),
    C3_no_tx_on_seller_failure.2
      ⟨⟨Fetch.ok 200 ⟨"b1", "user"⟩, Fetch.fail⟩, Fetch.ok 200 ⟨some "s1", "Lamp", 7/2⟩,
        ⟨Fetch.fail, Fetch.fail⟩, ⟨Fetch.fail, Fetch.fail, Fetch.fail⟩,
        ⟨Fetch.fail, Fetch.fail, Fetch.fail⟩, Fetch.ok 201 ⟨"t", "buy", "Lamp", 1, "c", "n"⟩⟩
      "b1" ⟨"i1", "buy", none⟩ ⟨⟨"b1", "user"⟩, none⟩ ⟨some "s1", "Lamp", 7/2⟩
      "s1" (HErr.http 404 "User not found")
      (by decide) rfl rfl rfl (by decide) (by decide) rfl⟩

/-- C4 counterexample: the buyer id `"AB1"` and the item's resolved seller
id `"ab1"` denote the same identity up to ASCII case, yet the operation is
not rejected — the exact string comparison `str(seller_id) == str(buyer_id)`
fails to match, the `POST /transactions` call is issued, and a transaction
view is returned, contradicting the claimed rejection under any case
variation. -/
theorem C4_self_purchase_counterexample :
    sameIdentity "AB1" "ab1" ∧
    (create_composite_transaction txBackendSelfCase (some "AB1")
        txPayloadSelfCase).txRequest =
      some ⟨"AB1", "ab1", "item-1", "buy", "Lamp", PyNum.dec (101/10)⟩ ∧
    (create_composite_transaction txBackendSelfCase (some "AB1")
        txPayloadSelfCase).result =
      Except.ok ⟨"tx1", ⟨⟨"AB1", "user"⟩, none⟩, ⟨⟨"ab1", "user"⟩, none⟩,
        ⟨some "ab1", "Lamp", PyNum.flt (101/10)⟩, "buy", "Lamp",
        PyNum.dec (101/10), "created", "now"⟩ :=
  ⟨rfl, rfl, rfl⟩

/-- C4 (amended): the self-purchase rejection fires exactly when the
stringified seller id is character-for-character equal to the authenticated
buyer id; when they are equal the operation is rejected with the
self-purchase error and no transaction-create call is issued, but case
variants of the same identity are not normalized and escape the check. -/
theorem C4_self_purchase_amended :
    ∀ (b : TxBackend) (bid : String) (p : TxPayload) (buyer : Profile)
      (item : ItemJson),
      bid ≠ "" →
      get_user_with_address b.buyerB = Except.ok buyer →
      b.itemResp = Fetch.ok 200 item →
      item.owner_user_id = some bid →
      create_composite_transaction b (some bid) p =
        ⟨Except.error (HErr.http 400 "Cannot purchase your own item"), none⟩ := by
  intro b bid p buyer item hbid hbuyer hitem howner
  simp [create_composite_transaction, hbid, hbuyer, hitem, howner]

/-- C4 witness: a concrete exact-match self-purchase attempt is rejected. -/
theorem C4_self_purchase_amended_witness :
    create_composite_transaction
        ⟨⟨Fetch.ok 200 ⟨"b1", "user"⟩, Fetch.fail⟩, Fetch.ok 200 ⟨some "b1", "Lamp", 7/2⟩,
          ⟨Fetch.fail, Fetch.fail⟩, ⟨Fetch.fail, Fetch.fail, Fetch.fail⟩,
          ⟨Fetch.fail, Fetch.fail, Fetch.fail⟩, Fetch.ok 201 ⟨"t", "buy", "Lamp", 1, "c", "n"⟩⟩
        (some "b1") ⟨"i1", "buy", none⟩ =
      ⟨Except.error (HErr.http 400 "Cannot purchase your own item"), none⟩ :=
  C4_self_purchase_amended
    ⟨⟨Fetch.ok 200 ⟨"b1", "user"⟩, Fetch.fail⟩, Fetch.ok 200 ⟨some "b1", "Lamp", 7/2⟩,
      ⟨Fetch.fail, Fetch.fail⟩, ⟨Fetch.fail, Fetch.fail, Fetch.fail⟩,
      ⟨Fetch.fail, Fetch.fail, Fetch.fail⟩, Fetch.ok 201 ⟨"t", "buy", "Lamp", 1, "c", "n"⟩⟩
    "b1" ⟨"i1", "buy", none⟩ ⟨⟨"b1", "user"⟩, none⟩ ⟨some "b1", "Lamp", 7/2⟩
    (by decide) rfl rfl rfl

/-- C5 counterexample: with the caller overriding the price to the decimal
10.10, the payload sent to the backend carries the exact decimal, but the
item embedded in the returned composite view carries the value converted
through binary floating point (`item.price = float(final_price)` at
main.py:541), contradicting the claim that the value is never converted
through binary floating point end-to-end. -/
theorem C5_price_counterexample :
    (create_composite_transaction txBackendPrice (some "buyer1")
        txPayloadPrice).txRequest =
      some ⟨"buyer1", "seller1", "item-9", "buy", "Lamp", PyNum.dec (101/10)⟩ ∧
    (create_composite_transaction txBackendPrice (some "buyer1")
        txPayloadPrice).result =
      Except.ok ⟨"tx9", ⟨⟨"buyer1", "user"⟩, none⟩, ⟨⟨"seller1", "user"⟩, none⟩,
        ⟨some "seller1", "Lamp", PyNum.flt (101/10)⟩, "buy", "Lamp",
        PyNum.dec (101/10), "created", "t0"⟩ ∧
    PyNum.isExactDecimal (PyNum.flt (101/10)) = false :=
  ⟨rfl, rfl, rfl⟩

/-- C5 (amended): the final price equals the caller-supplied override when
present and the item's current price otherwise; the payload sent to the
backend carries it as an exact decimal, and the returned view's
`price_snapshot` is the exact decimal echoed by the backend, but the item
price embedded in the returned view is the final price converted through
binary floating point. -/
theorem C5_price_amended :
    ∀ (b : TxBackend) (bid : String) (p : TxPayload) (buyer seller : Profile)
      (item : ItemJson) (sid : String) (ts : Nat) (tx : TxJson),
      bid ≠ "" →
      get_user_with_address b.buyerB = Except.ok buyer →
      b.itemResp = Fetch.ok 200 item →
      item.owner_user_id = some sid → sid ≠ "" → sid ≠ bid →
      get_user_with_address b.sellerB = Except.ok seller →
      b.txResp = Fetch.ok ts tx → requestsRaises ts = false →
      (create_composite_transaction b (some bid) p).txRequest =
        some ⟨bid, sid, p.item_id, p.order_type, item.name,
          PyNum.dec (p.price_snapshot.getD item.price)⟩ ∧
      (create_composite_transaction b (some bid) p).result =
        Except.ok ⟨tx.id, buyer, seller,
          ⟨some sid, item.name, PyNum.flt (p.price_snapshot.getD item.price)⟩,
          tx.order_type, tx.title_snapshot, PyNum.dec tx.price_snapshot,
          tx.status, tx.created_at⟩ := by
  intro b bid p buyer seller item sid ts tx hbid hbuyer hitem howner hsid hneq
    hseller htx hts
  cases hps : p.price_snapshot with
  | none =>
    constructor <;>
      simp [create_composite_transaction, hbid, hbuyer, hitem, howner, hsid, hneq,
        hseller, htx, hts, hps, pyFloat]
  | some q =>
    constructor <;>
      simp [create_composite_transaction, hbid, hbuyer, hitem, howner, hsid, hneq,
        hseller, htx, hts, hps, pyFloat]

/-- C5 witness: a concrete successful run without an override, taking the
item's current price. -/
theorem C5_price_amended_witness :
    (create_composite_transaction
        ⟨⟨Fetch.ok 200 ⟨"b1", "user"⟩, Fetch.fail⟩, Fetch.ok 200 ⟨some "s1", "Lamp", 7/2⟩,
          ⟨Fetch.ok 200 ⟨"s1", "user"⟩, Fetch.fail⟩, ⟨Fetch.fail, Fetch.fail, Fetch.fail⟩,
          ⟨Fetch.fail, Fetch.fail, Fetch.fail⟩,
          Fetch.ok 201 ⟨"t7", "buy", "Lamp", 7/2, "created", "n"⟩⟩
        (some "b1") ⟨"i1", "buy", none⟩).txRequest =
      some ⟨"b1", "s1", "i1", "buy", "Lamp", PyNum.dec ((none : Option Rat).getD (7/2))⟩ :=
  (C5_price_amended
    ⟨⟨Fetch.ok 200 ⟨"b1", "user"⟩, Fetch.fail⟩, Fetch.ok 200 ⟨some "s1", "Lamp", 7/2⟩,
      ⟨Fetch.ok 200 ⟨"s1", "user"⟩, Fetch.fail⟩, ⟨Fetch.fail, Fetch.fail, Fetch.fail⟩,
      ⟨Fetch.fail, Fetch.fail, Fetch.fail⟩,
      Fetch.ok 201 ⟨"t7", "buy", "Lamp", 7/2, "created", "n"⟩⟩
    "b1" ⟨"i1", "buy", none⟩ ⟨⟨"b1", "user"⟩, none⟩ ⟨⟨"s1", "user"⟩, none⟩
    ⟨some "s1", "Lamp", 7/2⟩ "s1" 201 ⟨"t7", "buy", "Lamp", 7/2, "created", "n"⟩
    (by decide) rfl rfl rfl (by decide) (by decide) rfl rfl (by decide)).1

/-- C6: for every existing user, the profile-composition operation returns
the user with no address when the address backend call fails (address
failure is non-fatal), and fails with a 404 NotFound when the user backend
call fails, whether at the transport level or with a failing status. -/
theorem C6_profile_composition :
    (∀ (b : ProfileBackend) (s : Nat) (u : UserJson),
        b.userResp = Fetch.ok s u → requestsRaises s = false →
        b.addrResp = Fetch.fail →
        get_user_with_address b = Except.ok ⟨u, none⟩) ∧
    (∀ b : ProfileBackend, b.userResp = Fetch.fail →
        get_user_with_address b = Except.error (HErr.http 404 "User not found")) ∧
    (∀ (b : ProfileBackend) (s : Nat) (u : UserJson),
        b.userResp = Fetch.ok s u → requestsRaises s = true →
        get_user_with_address b = Except.error (HErr.http 404 "User not found")) := by
  refine ⟨?_, ?_, ?_⟩
  · intro b s u hu hs ha
    simp [get_user_with_address, hu, hs, ha]
  · intro b hu
    simp [get_user_with_address, hu]
  · intro b s u hu hs
    simp [get_user_with_address, hu, hs]

/-- C6 witness: a concrete user with a failing address call, a concrete
user transport failure, and a concrete failing user status. -/
theorem C6_profile_composition_witness :
    get_user_with_address ⟨Fetch.ok 200 ⟨"u1", "user"⟩, Fetch.fail⟩ =
      Except.ok ⟨⟨"u1", "user"⟩, none⟩ ∧
    get_user_with_address ⟨Fetch.fail, Fetch.ok 200 []⟩ =
      Except.error (HErr.http 404 "User not found") ∧
    get_user_with_address ⟨Fetch.ok 503 ⟨"u1", "user"⟩, Fetch.ok 200 []⟩ =
      Except.error (HErr.http 404 "User not found") :=
  ⟨C6_profile_composition.1 ⟨Fetch.ok 200 ⟨"u1", "user"⟩, Fetch.fail⟩ 200
      ⟨"u1", "user"⟩ rfl (by decide) rfl,
    C6_profile_composition.2.1 ⟨Fetch.fail, Fetch.ok 200 []⟩ rfl,
    C6_profile_composition.2.2 ⟨Fetch.ok 503 ⟨"u1", "user"⟩, Fetch.ok 200 []⟩ 503
      ⟨"u1", "user"⟩ rfl (by decide)⟩

/-- C7 counterexample: in main.py's `delete_my_item`, a transport failure of
the item fetch is reported as `HTTPException(404, "Item not found")` — a
transport failure reported as NotFound, contradicting the claim that the two
error kinds are never conflated. -/
theorem C7_adapter_errors_counterexample :
    delete_my_item ⟨Fetch.fail, Fetch.ok 204 ()⟩ (some "u1") =
      ⟨Except.error (HErr.http 404 "Item not found"), false⟩ := rfl

/-- C7 (amended): the services-layer adapter `get_user` keeps the error
kinds apart — a 404 raises the not-found `ValueError`, a transport failure
surfaces the client's transport exception, any other failing status raises
the distinct `raise_for_status` error, and a success parses the user — but
main.py's inline fetch helpers conflate the kinds: any item-fetch failure in
`delete_my_item`, transport failures included, is reported as a 404
NotFound. -/
theorem C7_adapter_errors_amended :
    (∀ u : UserJson, user_service_get_user (Fetch.ok 404 u) =
        Except.error AdapterErr.valueNotFound) ∧
    (user_service_get_user (Fetch.fail : Fetch UserJson) =
        Except.error AdapterErr.transportError) ∧
    (∀ (s : Nat) (u : UserJson), 400 ≤ s → s < 600 → s ≠ 404 →
        user_service_get_user (Fetch.ok s u) =
          Except.error (AdapterErr.httpStatusError s)) ∧
    (∀ (s : Nat) (u : UserJson), s < 400 →
        user_service_get_user (Fetch.ok s u) = Except.ok u) ∧
    (∀ (b : DeleteBackend) (uid : String), uid ≠ "" → b.itemResp = Fetch.fail →
        delete_my_item b (some uid) =
          ⟨Except.error (HErr.http 404 "Item not found"), false⟩) := by
  refine ⟨?_, rfl, ?_, ?_, ?_⟩
  · intro u
    simp [user_service_get_user]
  · intro s u h1 h2 h3
    simp [user_service_get_user, h3, requestsRaises, h1, h2]
  · intro s u h1
    have h404 : s ≠ 404 := by omega
    have hr : requestsRaises s = false := by
      simp [requestsRaises]
      omega
    simp [user_service_get_user, h404, hr]
  · intro b uid huid hresp
    simp [delete_my_item, huid, hresp]

/-- C7 witness: concrete runs exercising each branch of the amended claim. -/
theorem C7_adapter_errors_amended_witness :
    user_service_get_user (Fetch.ok 404 ⟨"u1", "user"⟩) =
      Except.error AdapterErr.valueNotFound ∧
    user_service_get_user (Fetch.ok 503 ⟨"u1", "user"⟩) =
      Except.error (AdapterErr.httpStatusError 503) ∧
    user_service_get_user (Fetch.ok 200 ⟨"u1", "user"⟩) = Except.ok ⟨"u1", "user"⟩ ∧
    delete_my_item ⟨Fetch.fail, Fetch.fail⟩ (some "u2") =
      ⟨Except.error (HErr.http 404 "Item not found"), false⟩ :=
  ⟨C7_adapter_errors_amended.1 ⟨"u1", "user"⟩,
    C7_adapter_errors_amended.2.2.1 503 ⟨"u1", "user"⟩ (by decide) (by decide) (by decide),
    C7_adapter_errors_amended.2.2.2.1 200 ⟨"u1", "user"⟩ (by decide),
    C7_adapter_errors_amended.2.2.2.2 ⟨Fetch.fail, Fetch.fail⟩ "u2" (by decide) rfl⟩

/-- C8: for every owner-facing item-delete request, a caller whose
authenticated id differs from the fetched item's owner receives a 403
Forbidden with no delete forwarded; a caller whose id equals the owner
succeeds with the delete forwarded to the backend; and deleting an item the
backend no longer has (a 404 on the fetch) yields a 404 NotFound. -/
theorem C8_delete_item :
    (∀ (b : DeleteBackend) (uid : String) (s : Nat) (item : ItemJson),
        uid ≠ "" → b.itemResp = Fetch.ok s item → requestsRaises s = false →
        item.owner_user_id ≠ some uid →
        delete_my_item b (some uid) =
          ⟨Except.error (HErr.http 403 "You can only delete your own items"), false⟩) ∧
    (∀ (b : DeleteBackend) (uid : String) (s ds : Nat) (item : ItemJson),
        uid ≠ "" → b.itemResp = Fetch.ok s item → requestsRaises s = false →
        item.owner_user_id = some uid → b.delResp = Fetch.ok ds () →
        requestsRaises ds = false →
        delete_my_item b (some uid) = ⟨Except.ok (), true⟩) ∧
    (∀ (b : DeleteBackend) (uid : String) (item : ItemJson),
        uid ≠ "" → b.itemResp = Fetch.ok 404 item →
        delete_my_item b (some uid) =
          ⟨Except.error (HErr.http 404 "Item not found"), false⟩) := by
  refine ⟨?_, ?_, ?_⟩
  · intro b uid s item huid hresp hs howner
    simp [delete_my_item, huid, hresp, hs, howner]
  · intro b uid s ds item huid hresp hs howner hdel hds
    simp [delete_my_item, huid, hresp, hs, howner, hdel, hds]
  · intro b uid item huid hresp
    simp [delete_my_item, huid, hresp, requestsRaises]

/-- C8 witness: the spec's scenario on one concrete item — delete as a
non-owner is Forbidden, delete as the owner succeeds, delete once the
backend no longer has the item is NotFound. -/
theorem C8_delete_item_witness :
    delete_my_item ⟨Fetch.ok 200 ⟨some "owner1", "Lamp", 7/2⟩, Fetch.ok 204 ()⟩
        (some "intruder") =
      ⟨Except.error (HErr.http 403 "You can only delete your own items"), false⟩ ∧
    delete_my_item ⟨Fetch.ok 200 ⟨some "owner1", "Lamp", 7/2⟩, Fetch.ok 204 ()⟩
        (some "owner1") = ⟨Except.ok (), true⟩ ∧
    delete_my_item ⟨Fetch.ok 404 ⟨some "owner1", "Lamp", 7/2⟩, Fetch.ok 204 ()⟩
        (some "owner1") =
      ⟨Except.error (HErr.http 404 "Item not found"), false⟩ :=
  ⟨C8_delete_item.1 ⟨Fetch.ok 200 ⟨some "owner1", "Lamp", 7/2⟩, Fetch.ok 204 ()⟩
      "intruder" 200 ⟨some "owner1", "Lamp", 7/2⟩ (by decide) rfl (by decide) (by decide),
    C8_delete_item.2.1 ⟨Fetch.ok 200 ⟨some "owner1", "Lamp", 7/2⟩, Fetch.ok 204 ()⟩
      "owner1" 200 204 ⟨some "owner1", "Lamp", 7/2⟩ (by decide) rfl (by decide) rfl rfl
      (by decide),
    C8_delete_item.2.2 ⟨Fetch.ok 404 ⟨some "owner1", "Lamp", 7/2⟩, Fetch.ok 204 ()⟩
      "owner1" ⟨some "owner1", "Lamp", 7/2⟩ (by decide) rfl⟩

/-- C9: for every login request whose email probe comes back 404 from the
user backend, the gateway creates an account with placeholder phone
`"0000000000"` and role `"user"`, and when creation succeeds it returns a
token whose decoded subject equals the created account's id and whose role
claim equals that account's role. -/
theorem C9_login_new_email :
    ∀ (b : LoginBackend) (login : LoginReq) (u cu : UserJson) (cs : Nat),
      b.byEmail = Fetch.ok 404 u → b.createResp = Fetch.ok cs cu →
      httpxRaises cs = false →
      (login_with_google b login).createReq =
        some ⟨login.email, login.username, login.full_name, login.avatar_url,
          "0000000000", "user"⟩ ∧
      (login_with_google b login).result = Except.ok (cu, create_jwt cu.id cu.role) ∧
      (jwt_decode (create_jwt cu.id cu.role)).sub = cu.id ∧
      (jwt_decode (create_jwt cu.id cu.role)).role = cu.role := by
  intro b login u cu cs hmail hcreate hcs
  refine ⟨?_, ?_, rfl, rfl⟩ <;>
    simp [login_with_google, hmail, hcreate, hcs]

/-- C9 witness: a concrete login with a new email. -/
theorem C9_login_new_email_witness :
    (login_with_google ⟨Fetch.ok 404 ⟨"", ""⟩, Fetch.ok 201 ⟨"new-id", "user"⟩⟩
        ⟨"a@b.c", "alice", none, none, "gtok"⟩).createReq =
      some ⟨"a@b.c", "alice", none, none, "0000000000", "user"⟩ ∧
    (login_with_google ⟨Fetch.ok 404 ⟨"", ""⟩, Fetch.ok 201 ⟨"new-id", "user"⟩⟩
        ⟨"a@b.c", "alice", none, none, "gtok"⟩).result =
      Except.ok (⟨"new-id", "user"⟩, create_jwt "new-id" "user") :=
  ⟨(C9_login_new_email ⟨Fetch.ok 404 ⟨"", ""⟩, Fetch.ok 201 ⟨"new-id", "user"⟩⟩
      ⟨"a@b.c", "alice", none, none, "gtok"⟩ ⟨"", ""⟩ ⟨"new-id", "user"⟩ 201
      rfl rfl (by decide)).1,
    (C9_login_new_email ⟨Fetch.ok 404 ⟨"", ""⟩, Fetch.ok 201 ⟨"new-id", "user"⟩⟩
      ⟨"a@b.c", "alice", none, none, "gtok"⟩ ⟨"", ""⟩ ⟨"new-id", "user"⟩ 201
      rfl rfl (by decide)).2.1⟩

/-- C10 counterexample: supplying the empty string as `buyer_id` — a query
parameter different from the token subject `"u1"` — is not rejected with
Forbidden: Python truthiness treats it as absent, and the backend is queried
with the caller's own id, contradicting the claimed rejection of every
differing supplied parameter. -/
theorem C10_my_transactions_counterexample :
    (some "" : Option String) ≠ some "u1" ∧
    get_my_transactions ⟨Fetch.ok 200 []⟩ (some "") none "u1" =
      ⟨Except.ok [], some ⟨some "u1", none⟩⟩ :=
  ⟨by decide, rfl⟩

/-- C10 (amended): a non-empty `buyer_id` differing from the token subject
yields Forbidden, as does a non-empty `seller_id`; an empty or missing
parameter is treated as absent, and with neither parameter the backend is
queried with `buyer_id` equal to the token subject; whenever a query is
issued, both parameters sent to the backend are either absent or equal to
the token subject, so the caller can never retrieve another user's
transaction history. -/
theorem C10_my_transactions_amended :
    (∀ (b : MyTxBackend) (bstr : String) (so : Option String) (sub : String),
        bstr ≠ "" → bstr ≠ sub →
        get_my_transactions b (some bstr) so sub =
          ⟨Except.error (HErr.http 403 "Cannot view other users' buyer history"), none⟩) ∧
    (∀ (b : MyTxBackend) (sstr : String) (sub : String),
        sstr ≠ "" → sstr ≠ sub →
        get_my_transactions b none (some sstr) sub =
          ⟨Except.error (HErr.http 403 "Cannot view other users' seller history"), none⟩) ∧
    (∀ (b : MyTxBackend) (sub : String),
        (get_my_transactions b none none sub).query = some ⟨some sub, none⟩) ∧
    (∀ (b : MyTxBackend) (bi si : Option String) (sub : String) (q : QueryParams),
        (get_my_transactions b bi si sub).query = some q →
        (q.buyer_id = none ∨ q.buyer_id = some sub) ∧
        (q.seller_id = none ∨ q.seller_id = some sub)) := by
  refine ⟨?_, ?_, ?_, ?_⟩
  · intro b bstr so sub h1 h2
    simp [get_my_transactions, truthy, h1, h2]
  · intro b sstr sub h1 h2
    simp [get_my_transactions, truthy, h1, h2]
  · intro b sub
    cases hlr : b.listResp <;>
      simp [get_my_transactions, truthy, hlr, apply_ite MyTxOutcome.query]
  · intro b bi si sub q hq
    by_cases htb : truthy bi = true <;>
      by_cases heb : bi = some sub <;>
        by_cases hts : truthy si = true <;>
          by_cases hes : si = some sub <;>
            cases hlr : b.listResp <;>
              simp_all [get_my_transactions, apply_ite MyTxOutcome.query] <;>
                (subst hq; simp)

/-- C10 witness: concrete runs exercising each branch of the amended claim. -/
theorem C10_my_transactions_amended_witness :
    get_my_transactions ⟨Fetch.ok 200 []⟩ (some "mallory") none "u1" =
      ⟨Except.error (HErr.http 403 "Cannot view other users' buyer history"), none⟩ ∧
    get_my_transactions ⟨Fetch.ok 200 []⟩ none (some "mallory") "u1" =
      ⟨Except.error (HErr.http 403 "Cannot view other users' seller history"), none⟩ ∧
    (get_my_transactions ⟨Fetch.ok 200 []⟩ none none "u1").query =
      some ⟨some "u1", none⟩ ∧
    ((some "u1" : Option String) = none ∨ (some "u1" : Option String) = some "u1") ∧
    ((none : Option String) = none ∨ (none : Option String) = some "u1") :=
  ⟨C10_my_transactions_amended.1 ⟨Fetch.ok 200 []⟩ "mallory" none "u1"
      (by decide) (by decide),
    C10_my_transactions_amended.2.1 ⟨Fetch.ok 200 []⟩ "mallory" "u1"
      (by decide) (by decide),
    C10_my_transactions_amended.2.2.1 ⟨Fetch.ok 200 []⟩ "u1",
    (C10_my_transactions_amended.2.2.2 ⟨Fetch.ok 200 []⟩ none none "u1"
        ⟨some "u1", none⟩ rfl).1,
    (C10_my_transactions_amended.2.2.2 ⟨Fetch.ok 200 []⟩ none none "u1"
        ⟨some "u1", none⟩ rfl).2⟩
